import Mathlib

/-!
# Scaleway server resource handler (`resource_server.go`)

A shallow embedding of the four callbacks `resourceServerCreate`,
`resourceServerRead`, `resourceServerUpdate` and `resourceServerDelete`,
together with the parts of the two libraries they call: the resource data
object of `helper/schema` and the Scaleway API client.

* Go maps are association lists with unique keys (`AList`), compared by lookup.
* A Go `interface{}` value is a `GoValue` carrying its dynamic type; a
  single-value type assertion on the wrong dynamic type panics.
* A callback returns an `Outcome` (`nil`, an error, or a panic) together with
  the resource data it leaves behind and the list of remote calls issued.
* The remote client is a stub: each of its responses is a function of the calls
  issued before and of the arguments of the call. `api.WaitForServerReady` is one
  call of the stub.
* The two libraries are not part of the repository. Their types carry the
  fields the handler touches, and the methods of the resource data follow the
  documented behaviour of `helper/schema`: `Get` returns the zero value of an
  attribute that is not set, `GetOk` reports an attribute as set when it is
  "set to a non-zero value", lists are read as `[]interface{}` and maps as
  `map[string]interface{}`, `HasChange` compares the old and the new value
  with `reflect.DeepEqual`.
-/

namespace ResourceServer

/-! ## Go values -/

/-- A Go `map[string]α`: finitely many entries, keys unique. -/
abbrev GoMap (α : Type) := AList (fun _ : String => α)

/-- The dynamic values a `helper/schema` reader hands out as `interface{}`. -/
inductive GoValue where
  /-- the untyped nil interface -/
  | nil
  /-- a `string` -/
  | string (s : String)
  /-- a `bool` -/
  | bool (b : Bool)
  /-- a `[]interface{}` -/
  | sliceInterface (xs : List GoValue)
  /-- a `map[string]interface{}`, as its entries -/
  | mapStringInterface (kvs : List (String × GoValue))
  /-- a `[]string` -/
  | sliceString (xs : List String)

/-- The type assertion `v.(string)`. -/
def GoValue.assertString : GoValue → Except String String
  | .string s => .ok s
  | _ => .error "interface conversion: interface {} is not string"

/-- The type assertion `v.(bool)`. -/
def GoValue.assertBool : GoValue → Except String Bool
  | .bool b => .ok b
  | _ => .error "interface conversion: interface {} is not bool"

/-- The type assertion `v.(map[string]interface{})`. -/
def GoValue.assertMapStringInterface : GoValue → Except String (List (String × GoValue))
  | .mapStringInterface kvs => .ok kvs
  | _ => .error "interface conversion: interface {} is not map[string]interface {}"

/-- The type assertion `v.([]string)`: it succeeds on a `[]string` only, a
`[]interface{}` whose elements are strings is a different dynamic type. -/
def GoValue.assertSliceString : GoValue → Except String (List String)
  | .sliceString xs => .ok xs
  | _ => .error "interface conversion: interface {} is not []string"

/-- Whether a value is the zero value of its schema type (`false`, `""`, an
empty list, an empty map), as `reflect.DeepEqual(value, zero)` finds. -/
def GoValue.isZero : GoValue → Bool
  | .nil => true
  | .string s => s == ""
  | .bool b => b == false
  | .sliceInterface xs => xs.isEmpty
  | .mapStringInterface kvs => kvs.isEmpty
  | .sliceString xs => xs.isEmpty

/-- Go errors, by dynamic type. -/
inductive GoError where
  /-- an `api.ScalewayAPIError` value, with its HTTP status code -/
  | ScalewayAPIError (StatusCode : Int) (APIMessage : String)
  /-- the error built by `fmt.Errorf` / `errors.New` -/
  | errorString (s : String)
  /-- an error of any other dynamic type (a transport error, a JSON error, ...) -/
  | other (description : String)
  deriving DecidableEq, Repr

/-- How a callback ends: it returns `nil`, returns an error, or panics. -/
inductive Outcome where
  | nil
  | err (e : GoError)
  | panic (msg : String)
  deriving DecidableEq, Repr

/-! ## The Scaleway API client (`scaleway-cli/pkg/api`) -/

/-- The fields of `api.ScalewayServerDefinition` the handler assigns; a nil
pointer or nil slice is `none`. -/
structure ScalewayServerDefinition where
  Name : String
  Image : Option String
  Volumes : GoMap String
  DynamicIPRequired : Option Bool
  Bootscript : Option String
  Tags : Option (List String)
  deriving DecidableEq

/-- The zero value of `var def api.ScalewayServerDefinition`. -/
def ScalewayServerDefinition.zero : ScalewayServerDefinition :=
  { Name := "", Image := none, Volumes := ∅, DynamicIPRequired := none,
    Bootscript := none, Tags := none }

/-- An `api.ScalewayVolume` literal with only `Identifier` given. -/
structure ScalewayVolume where
  Identifier : String
  deriving DecidableEq, Repr

/-- The fields of `api.ScalewayServerPatchDefinition` the handler assigns; a
nil pointer is `none`. -/
structure ScalewayServerPatchDefinition where
  Name : Option String
  Volumes : Option (GoMap ScalewayVolume)
  deriving DecidableEq

/-- The zero value of `var server api.ScalewayServerPatchDefinition`. -/
def ScalewayServerPatchDefinition.zero : ScalewayServerPatchDefinition :=
  { Name := none, Volumes := none }

/-- An `api.ScalewayIPAddress`. -/
structure ScalewayIPAddress where
  IP : String
  deriving DecidableEq, Repr

/-- The fields of `api.ScalewayServer` the handler reads. -/
structure ScalewayServer where
  PublicAddress : ScalewayIPAddress
  PrivateIP : String
  State : String
  StateDetail : String
  deriving DecidableEq, Repr

/-- A call on the remote client, with its arguments. -/
inductive Call where
  | PostServer (definition : ScalewayServerDefinition)
  | PostServerAction (serverID action : String)
  | WaitForServerReady (serverID gateway : String)
  | GetServer (serverID : String)
  | PatchServer (serverID : String) (definition : ScalewayServerPatchDefinition)
  | DeleteServerSafe (serverID : String)
  deriving DecidableEq

/-- A stub `*api.ScalewayAPI`: each response depends on the calls issued so
far and on the arguments. `Option GoError` is a Go `error`, `none` being nil. -/
structure ScalewayAPI where
  PostServer : List Call → ScalewayServerDefinition → Except GoError String
  PostServerAction : List Call → String → String → Option GoError
  WaitForServerReady : List Call → String → String → Except GoError ScalewayServer
  GetServer : List Call → String → Except GoError ScalewayServer
  PatchServer : List Call → String → ScalewayServerPatchDefinition → Option GoError
  DeleteServerSafe : List Call → String → Option GoError

/-! ## The resource data (`helper/schema`) -/

/-- The declared fields of the schema: `name`, `image`, `volumes` are required,
the other three optional (`none` when not declared). -/
structure Config where
  name : String
  image : String
  volumes : GoMap String
  dynamic_ip_required : Option Bool
  bootscript : Option String
  tags : Option (List String)
  deriving DecidableEq

/-- A `*schema.ResourceData`: the identifier, the declared values before
(`prior`) and after (`config`) the change, the computed attributes, the
connection info and the bookkeeping of the partial-state mode. -/
structure ResourceData where
  id : String
  prior : Config
  config : Config
  ipv4_address : String
  ipv4_address_private : String
  state : String
  state_detail : String
  connInfo : GoMap String
  isPartial : Bool
  partialMap : List String
  deriving DecidableEq

/-- The entries of a string map as a `map[string]interface{}`. -/
def mapValue (m : GoMap String) : GoValue :=
  .mapStringInterface (m.entries.map fun e => (e.1, GoValue.string e.2))

/-- The reader behind `Get`: the value of an attribute and whether it exists.
An attribute that is not set reads as the zero value of its type; a list
attribute is a `[]interface{}` and a map attribute a `map[string]interface{}`. -/
def readField (c : Config) (d : ResourceData) (key : String) : GoValue × Bool :=
  if key = "name" then (.string c.name, true)
  else if key = "image" then (.string c.image, true)
  else if key = "volumes" then (mapValue c.volumes, true)
  else if key = "dynamic_ip_required" then
    match c.dynamic_ip_required with
    | some b => (.bool b, true)
    | none => (.bool false, false)
  else if key = "bootscript" then
    match c.bootscript with
    | some s => (.string s, true)
    | none => (.string "", false)
  else if key = "tags" then
    match c.tags with
    | some ts => (.sliceInterface (ts.map GoValue.string), true)
    | none => (.sliceInterface [], false)
  else if key = "ipv4_address" then (.string d.ipv4_address, true)
  else if key = "ipv4_address_private" then (.string d.ipv4_address_private, true)
  else if key = "state" then (.string d.state, true)
  else if key = "state_detail" then (.string d.state_detail, true)
  else (.nil, false)

/-- The method `d.Id()`. -/
def ResourceData.Id (d : ResourceData) : String := d.id

/-- The method `d.SetId(v)`. -/
def ResourceData.SetId (d : ResourceData) (v : String) : ResourceData := { d with id := v }

/-- The method `d.Get(key)`: the new value of the attribute. -/
def ResourceData.Get (d : ResourceData) (key : String) : GoValue := (readField d.config d key).1

/-- The method `d.GetOk(key)`: the value, and whether the attribute "has been
set to a non-zero value": it exists and is not the zero value of its type. -/
def ResourceData.GetOk (d : ResourceData) (key : String) : GoValue × Bool :=
  let r := readField d.config d key
  (r.1, r.2 && !r.1.isZero)

/-- The comparison `reflect.DeepEqual` on two string maps: the same number of
entries, and every key of the first bound to the same value in the second. -/
def mapDeepEqual (o n : GoMap String) : Bool :=
  o.entries.length == n.entries.length &&
    o.entries.all fun e => n.lookup e.1 == some e.2

/-- The method `d.HasChange(key)` on the two mutable attributes: the old and
the new value are not deeply equal. -/
def ResourceData.HasChange (d : ResourceData) (key : String) : Bool :=
  if key = "name" then d.prior.name != d.config.name
  else if key = "volumes" then !mapDeepEqual d.prior.volumes d.config.volumes
  else false

/-- The method `d.Set(key, value)` with a string value, on the computed
attributes (the returned error is dropped by the handler). -/
def ResourceData.Set (d : ResourceData) (key : String) (value : String) : ResourceData :=
  if key = "ipv4_address" then { d with ipv4_address := value }
  else if key = "ipv4_address_private" then { d with ipv4_address_private := value }
  else if key = "state" then { d with state := value }
  else if key = "state_detail" then { d with state_detail := value }
  else d

/-- The method `d.SetConnInfo(v)`. -/
def ResourceData.SetConnInfo (d : ResourceData) (v : GoMap String) : ResourceData :=
  { d with connInfo := v }

/-- The method `d.Partial(enable)`: switches the partial-state mode; switching it
off forgets the keys marked so far. -/
def ResourceData.Partial (d : ResourceData) (enable : Bool) : ResourceData :=
  { d with isPartial := enable, partialMap := if enable then d.partialMap else [] }

/-- The method `d.SetPartial(k)`: marks a key to be kept in partial-state mode. -/
def ResourceData.SetPartial (d : ResourceData) (k : String) : ResourceData :=
  if d.isPartial then { d with partialMap := d.partialMap ++ [k] } else d

/-! ## The handler (`resource_server.go`) -/

/-- The loop of lines 73-75: `for k, v := range ... { volumes[k] = v.(string) }`. -/
def rangeVolumes : List (String × GoValue) → GoMap String → Except String (GoMap String)
  | [], volumes => .ok volumes
  | (k, v) :: rest, volumes =>
    match v.assertString with
    | .error msg => .error msg
    | .ok s => rangeVolumes rest (volumes.insert k s)

/-- The loop of lines 176-180:
`for k, v := range ... { volumes[k] = api.ScalewayVolume{Identifier: v.(string)} }`. -/
def rangePatchVolumes :
    List (String × GoValue) → GoMap ScalewayVolume → Except String (GoMap ScalewayVolume)
  | [], volumes => .ok volumes
  | (k, v) :: rest, volumes =>
    match v.assertString with
    | .error msg => .error msg
    | .ok s => rangePatchVolumes rest (volumes.insert k { Identifier := s })

/-- Lines 69-95 of `resourceServerCreate`: the image and the creation request
built from the declared fields, or the message of the panic of a failed type
assertion. -/
def serverDefinition (d : ResourceData) : Except String (String × ScalewayServerDefinition) :=
  match (d.Get "image").assertString with
  | .error msg => .error msg
  | .ok image =>
  match (d.Get "volumes").assertMapStringInterface with
  | .error msg => .error msg
  | .ok kvs =>
  match rangeVolumes kvs ∅ with
  | .error msg => .error msg
  | .ok volumes =>
  match (d.Get "name").assertString with
  | .error msg => .error msg
  | .ok name =>
  let def0 : ScalewayServerDefinition :=
    { ScalewayServerDefinition.zero with Name := name, Image := some image, Volumes := volumes }
  let step1 : Except String ScalewayServerDefinition :=
    match d.GetOk "dynamic_ip_required" with
    | (dynamicIPRequiredI, true) =>
      match dynamicIPRequiredI.assertBool with
      | .error msg => .error msg
      | .ok dynamicIPRequired => .ok { def0 with DynamicIPRequired := some dynamicIPRequired }
    | (_, false) => .ok def0
  match step1 with
  | .error msg => .error msg
  | .ok def1 =>
  let step2 : Except String ScalewayServerDefinition :=
    match d.GetOk "bootscript" with
    | (bootscriptI, true) =>
      match bootscriptI.assertString with
      | .error msg => .error msg
      | .ok bootscript => .ok { def1 with Bootscript := some bootscript }
    | (_, false) => .ok def1
  match step2 with
  | .error msg => .error msg
  | .ok def2 =>
  match d.GetOk "tags" with
  | (tags, true) =>
    match tags.assertSliceString with
    | .error msg => .error msg
    | .ok ts => .ok (image, { def2 with Tags := some ts })
  | (_, false) => .ok (image, def2)

/-- The callback `resourceServerRead`, started after the calls `h`. -/
def resourceServerRead (d : ResourceData) (m : ScalewayAPI) (h : List Call) :
    Outcome × ResourceData × List Call :=
  let h1 := h ++ [Call.GetServer d.Id]
  match m.GetServer h d.Id with
  | .error err =>
    -- serr := err.(api.ScalewayAPIError)
    match err with
    | .ScalewayAPIError StatusCode _ =>
      if StatusCode = 404 then (.nil, d.SetId "", h1)
      else (.err err, d, h1)
    | _ => (.panic "interface conversion: error is not api.ScalewayAPIError", d, h1)
  | .ok server =>
    let d := d.Set "ipv4_address" server.PublicAddress.IP
    let d := d.Set "ipv4_address_private" server.PrivateIP
    let d := d.Set "state" server.State
    let d := d.Set "state_detail" server.StateDetail
    let d := d.SetConnInfo
      (((∅ : GoMap String).insert "type" "ssh").insert "host" server.PublicAddress.IP)
    (.nil, d, h1)

/-- The callback `resourceServerCreate`, started after the calls `h`. -/
def resourceServerCreate (d : ResourceData) (m : ScalewayAPI) (h : List Call) :
    Outcome × ResourceData × List Call :=
  let d := d.Partial true
  match serverDefinition d with
  | .error msg => (.panic msg, d, h)
  | .ok (image, definition) =>
  let h1 := h ++ [Call.PostServer definition]
  match m.PostServer h definition with
  | .error _ => (.err (.errorString ("Error Posting server with image " ++ image)), d, h1)
  | .ok id =>
  let h2 := h1 ++ [Call.PostServerAction id "poweron"]
  match m.PostServerAction h1 id "poweron" with
  | some err => (.err err, d, h2)
  | none =>
  let d := d.SetId id
  let h3 := h2 ++ [Call.WaitForServerReady id ""]
  match m.WaitForServerReady h2 id "" with
  | .error err => (.err err, d, h3)
  | .ok _ =>
  let d := d.SetPartial "id"
  match resourceServerRead d m h3 with
  | (.nil, d, h4) =>
    let d := d.SetPartial "ipv4_address"
    let d := d.Partial false
    (.nil, d, h4)
  | r => r

/-- The callback `resourceServerUpdate`, started after the calls `h`. -/
def resourceServerUpdate (d : ResourceData) (m : ScalewayAPI) (h : List Call) :
    Outcome × ResourceData × List Call :=
  let server := ScalewayServerPatchDefinition.zero
  let step1 : Except String ScalewayServerPatchDefinition :=
    if d.HasChange "name" then
      match (d.Get "name").assertString with
      | .error msg => .error msg
      | .ok name => .ok { server with Name := some name }
    else .ok server
  match step1 with
  | .error msg => (.panic msg, d, h)
  | .ok server =>
  let step2 : Except String ScalewayServerPatchDefinition :=
    if d.HasChange "volumes" then
      match (d.Get "volumes").assertMapStringInterface with
      | .error msg => .error msg
      | .ok kvs =>
        match rangePatchVolumes kvs ∅ with
        | .error msg => .error msg
        | .ok volumes => .ok { server with Volumes := some volumes }
    else .ok server
  match step2 with
  | .error msg => (.panic msg, d, h)
  | .ok server =>
  -- the error returned by PatchServer is dropped
  let _ := m.PatchServer h d.Id server
  (.nil, d, h ++ [Call.PatchServer d.Id server])

/-- The callback `resourceServerDelete`, started after the calls `h`. -/
def resourceServerDelete (d : ResourceData) (m : ScalewayAPI) (h : List Call) :
    Outcome × ResourceData × List Call :=
  let h1 := h ++ [Call.DeleteServerSafe d.Id]
  match m.DeleteServerSafe h d.Id with
  | some err => (.err err, d, h1)
  | none => (.nil, d, h1)


/-! ## Concrete inputs -/

/-- The configuration `{name: "web1", image: "img-123", volumes: {"0": "vol-abc"}}`. -/
def web1 : Config :=
  { name := "web1", image := "img-123", volumes := AList.singleton "0" "vol-abc",
    dynamic_ip_required := none, bootscript := none, tags := none }

/-- The configuration `web1` with `dynamic_ip_required = false` and
`bootscript = ""` declared explicitly. -/
def web1Explicit : Config :=
  { web1 with dynamic_ip_required := some false, bootscript := some "" }

/-- The configuration `web1` with a dynamic IP, a boot script and an empty list of tags. -/
def web1Full : Config :=
  { web1 with dynamic_ip_required := some true, bootscript := some "boot-1", tags := some [] }

/-- The configuration `web1` renamed, with a second volume. -/
def web2 : Config :=
  { web1 with name := "web2", volumes := (AList.singleton "0" "vol-abc").insert "1" "vol-def" }

/-- The creation request built from `web1`. -/
def web1Definition : ScalewayServerDefinition :=
  { Name := "web1", Image := some "img-123", Volumes := AList.singleton "0" "vol-abc",
    DynamicIPRequired := none, Bootscript := none, Tags := none }

/-- The patch from `web1` to `web2`: the new name and both volumes. -/
def web2Patch : ScalewayServerPatchDefinition :=
  { Name := some "web2",
    Volumes := some
      ((AList.singleton "1" ({ Identifier := "vol-def" } : ScalewayVolume)).insert "0"
        { Identifier := "vol-abc" }) }

/-- The resource data of a resource not created yet, declared as `c`. -/
def newResource (c : Config) : ResourceData :=
  { id := "", prior := c, config := c, ipv4_address := "", ipv4_address_private := "",
    state := "", state_detail := "", connInfo := ∅, isPartial := false, partialMap := [] }

/-- The resource data of the created server `srv-1`, declared as `prior` before
and as `c` now, with computed attributes of an earlier read. -/
def existingResource (prior c : Config) : ResourceData :=
  { id := "srv-1", prior := prior, config := c, ipv4_address := "9.9.9.9",
    ipv4_address_private := "10.9.9.9", state := "stopped", state_detail := "booting",
    connInfo := AList.singleton "type" "winrm", isPartial := false, partialMap := [] }

/-- The server record `{1.2.3.4, 10.0.0.5, running, ""}`. -/
def runningServer : ScalewayServer :=
  { PublicAddress := { IP := "1.2.3.4" }, PrivateIP := "10.0.0.5", State := "running",
    StateDetail := "" }

/-- A stub client on which every call succeeds; it creates `srv-1`. -/
def stubClient : ScalewayAPI :=
  { PostServer := fun _ _ => .ok "srv-1"
    PostServerAction := fun _ _ _ => none
    WaitForServerReady := fun _ _ _ => .ok runningServer
    GetServer := fun _ _ => .ok runningServer
    PatchServer := fun _ _ _ => none
    DeleteServerSafe := fun _ _ => none }

/-- A stub client on which the creation call fails. -/
def stubPostServerFails : ScalewayAPI :=
  { stubClient with PostServer := fun _ _ => .error (.ScalewayAPIError 400 "invalid image") }

/-- A stub client on which the power-on call fails. -/
def stubPowerOnFails : ScalewayAPI :=
  { stubClient with
    PostServerAction := fun _ _ _ => some (.ScalewayAPIError 500 "cannot power on") }

/-- A stub client on which the readiness wait fails. -/
def stubWaitFails : ScalewayAPI :=
  { stubClient with
    WaitForServerReady := fun _ _ _ => .error (.errorString "Server did not reach ready state") }

/-- A stub client that reports every server as not found. -/
def stubNotFound : ScalewayAPI :=
  { stubClient with
    GetServer := fun _ _ => .error (.ScalewayAPIError 404 "not found")
    DeleteServerSafe := fun _ _ => some (.ScalewayAPIError 404 "not found") }

/-- A stub client whose fetch fails below the API: the error is not an
`api.ScalewayAPIError`. -/
def stubTransportError : ScalewayAPI :=
  { stubClient with GetServer := fun _ _ => .error (.other "dial tcp: connection refused") }

/-- A stub client on which the patch call fails. -/
def stubPatchFails : ScalewayAPI :=
  { stubClient with PatchServer := fun _ _ _ => some (.ScalewayAPIError 400 "invalid volume") }

/-! ## Lemmas on maps and the two loops -/

/-- The loop of `resourceServerCreate` never panics on the entries of a string
map, and binds every key as the entries do, falling back on the map it
started from. -/
theorem rangeVolumes_entries (l : List (Sigma fun _ : String => String)) :
    l.NodupKeys → ∀ acc : GoMap String,
      ∃ r, rangeVolumes (l.map fun e => (e.1, GoValue.string e.2)) acc = .ok r ∧
        ∀ k, r.lookup k = (l.dlookup k).orElse fun _ => acc.lookup k := by
  induction l with
  | nil => intro _ acc; exact ⟨acc, rfl, fun k => by simp⟩
  | cons e rest ih =>
    intro hnd acc
    obtain ⟨k0, v0⟩ := e
    rw [List.nodupKeys_cons] at hnd
    obtain ⟨r, hr, hlook⟩ := ih hnd.2 (acc.insert k0 v0)
    refine ⟨r, by simpa [rangeVolumes, GoValue.assertString] using hr, fun k => ?_⟩
    rw [hlook k]
    by_cases hk : k = k0
    · subst hk
      have hnone : List.dlookup k rest = none := List.dlookup_eq_none.mpr hnd.1
      simp [hnone]
    · have hne : k ≠ (⟨k0, v0⟩ : Sigma fun _ : String => String).1 := hk
      rw [List.dlookup_cons_ne rest _ hne, AList.lookup_insert_ne hk]

/-- The loop of `resourceServerUpdate` never panics on the entries of a string
map, and binds every key to the volume record of its identifier. -/
theorem rangePatchVolumes_entries (l : List (Sigma fun _ : String => String)) :
    l.NodupKeys → ∀ acc : GoMap ScalewayVolume,
      ∃ r, rangePatchVolumes (l.map fun e => (e.1, GoValue.string e.2)) acc = .ok r ∧
        ∀ k, r.lookup k =
          ((l.dlookup k).map fun v => ({ Identifier := v } : ScalewayVolume)).orElse
            fun _ => acc.lookup k := by
  induction l with
  | nil => intro _ acc; exact ⟨acc, rfl, fun k => by simp⟩
  | cons e rest ih =>
    intro hnd acc
    obtain ⟨k0, v0⟩ := e
    rw [List.nodupKeys_cons] at hnd
    obtain ⟨r, hr, hlook⟩ := ih hnd.2 (acc.insert k0 { Identifier := v0 })
    refine ⟨r, by simpa [rangePatchVolumes, GoValue.assertString] using hr, fun k => ?_⟩
    rw [hlook k]
    by_cases hk : k = k0
    · subst hk
      have hnone : List.dlookup k rest = none := List.dlookup_eq_none.mpr hnd.1
      simp [hnone]
    · have hne : k ≠ (⟨k0, v0⟩ : Sigma fun _ : String => String).1 := hk
      rw [List.dlookup_cons_ne rest _ hne, AList.lookup_insert_ne hk]

/-- The volumes loop of `resourceServerCreate` on a declared mapping. -/
theorem rangeVolumes_mapValue (m : GoMap String) :
    ∃ r, rangeVolumes (m.entries.map fun e => (e.1, GoValue.string e.2)) ∅ = .ok r ∧
      ∀ k, r.lookup k = m.lookup k := by
  obtain ⟨r, hr, hlook⟩ := rangeVolumes_entries m.entries m.nodupKeys ∅
  refine ⟨r, hr, fun k => ?_⟩
  rw [hlook k]
  cases h : List.dlookup k m.entries <;> simp [AList.lookup, h]

/-- The volumes loop of `resourceServerUpdate` on a declared mapping. -/
theorem rangePatchVolumes_mapValue (m : GoMap String) :
    ∃ r, rangePatchVolumes (m.entries.map fun e => (e.1, GoValue.string e.2)) ∅ = .ok r ∧
      ∀ k, r.lookup k = (m.lookup k).map fun v => ({ Identifier := v } : ScalewayVolume) := by
  obtain ⟨r, hr, hlook⟩ := rangePatchVolumes_entries m.entries m.nodupKeys ∅
  refine ⟨r, hr, fun k => ?_⟩
  rw [hlook k]
  cases h : List.dlookup k m.entries <;> simp [AList.lookup, h]

/-- Deep equality of two string maps is equality of all their lookups. -/
theorem mapDeepEqual_iff (o n : GoMap String) :
    mapDeepEqual o n = true ↔ ∀ k, o.lookup k = n.lookup k := by
  have hall : (o.entries.all fun e => n.lookup e.1 == some e.2) = true ↔
      ∀ k v, o.lookup k = some v → n.lookup k = some v := by
    rw [List.all_eq_true]
    constructor
    · intro h k v hkv
      have hmem : (⟨k, v⟩ : Sigma fun _ : String => String) ∈ o.entries :=
        AList.mem_lookup_iff.mp hkv
      simpa using h _ hmem
    · intro h e he
      obtain ⟨k, v⟩ := e
      have : o.lookup k = some v := AList.mem_lookup_iff.mpr he
      simpa using h k v this
  have hkeys : ∀ a b : GoMap String, (∀ k v, a.lookup k = some v → b.lookup k = some v) →
      a.keys ⊆ b.keys := by
    intro a b h k hk
    have hk1 : k ∈ a := AList.mem_keys.mpr hk
    obtain ⟨v, hv⟩ := Option.isSome_iff_exists.mp (AList.lookup_isSome.mpr hk1)
    have := h k v hv
    exact AList.mem_keys.mp (AList.lookup_isSome.mp (by simp [this]))
  unfold mapDeepEqual
  rw [Bool.and_eq_true, hall]
  constructor
  · rintro ⟨hlen, hsub⟩ k
    have hlen1 : o.keys.length = n.keys.length := by
      simpa [AList.keys, List.keys] using hlen
    have hperm : o.keys.Perm n.keys :=
      (List.subperm_of_subset o.keys_nodup (hkeys o n hsub)).perm_of_length_le (le_of_eq hlen1.symm)
    cases ho : o.lookup k with
    | some v => exact (hsub k v ho).symm
    | none =>
      have hk : k ∉ n.keys := fun hmem =>
        (AList.lookup_eq_none.mp ho) (AList.mem_keys.mpr (hperm.symm.subset hmem))
      exact (AList.lookup_eq_none.mpr fun hmem => hk (AList.mem_keys.mp hmem)).symm
  · intro h
    have h1 : ∀ k v, o.lookup k = some v → n.lookup k = some v := fun k v hv => by rw [← h k, hv]
    have h2 : ∀ k v, n.lookup k = some v → o.lookup k = some v := fun k v hv => by rw [h k, hv]
    refine ⟨?_, h1⟩
    have hperm : o.keys.Perm n.keys :=
      (List.perm_ext_iff_of_nodup o.keys_nodup n.keys_nodup).mpr
        fun k => ⟨fun hk => hkeys o n h1 hk, fun hk => hkeys n o h2 hk⟩
    have := hperm.length_eq
    simpa [AList.keys, List.keys] using this

/-! ## The readers on the declared fields -/

/-- The read of line 69. -/
theorem Get_image (d : ResourceData) : d.Get "image" = .string d.config.image := by
  simp [ResourceData.Get, readField]

/-- The read of line 79. -/
theorem Get_name (d : ResourceData) : d.Get "name" = .string d.config.name := by
  simp [ResourceData.Get, readField]

/-- The read of lines 73 and 176. -/
theorem Get_volumes (d : ResourceData) : d.Get "volumes" = mapValue d.config.volumes := by
  simp [ResourceData.Get, readField]

/-- The test of line 83: set only when declared `true`. -/
theorem GetOk_dynamic_ip_required (d : ResourceData) :
    d.GetOk "dynamic_ip_required" =
      match d.config.dynamic_ip_required with
      | some true => (.bool true, true)
      | _ => (.bool false, false) := by
  rcases h : d.config.dynamic_ip_required with _ | b
  · simp [ResourceData.GetOk, readField, h, GoValue.isZero]
  · cases b <;> simp [ResourceData.GetOk, readField, h, GoValue.isZero]

/-- The test of line 88: set only when declared non-empty. -/
theorem GetOk_bootscript (d : ResourceData) :
    d.GetOk "bootscript" =
      match d.config.bootscript with
      | some s => (.string s, s != "")
      | none => (.string "", false) := by
  rcases h : d.config.bootscript with _ | s
  · simp [ResourceData.GetOk, readField, h, GoValue.isZero]
  · simp [ResourceData.GetOk, readField, h, GoValue.isZero, bne]

/-- The test of line 93: set only when declared non-empty, and then read as a
`[]interface{}`. -/
theorem GetOk_tags (d : ResourceData) :
    d.GetOk "tags" =
      match d.config.tags with
      | some ts => (.sliceInterface (ts.map GoValue.string), !ts.isEmpty)
      | none => (.sliceInterface [], false) := by
  rcases h : d.config.tags with _ | ts
  · simp [ResourceData.GetOk, readField, h, GoValue.isZero]
  · cases ts <;> simp [ResourceData.GetOk, readField, h, GoValue.isZero]

/-- The request of `resourceServerCreate` when no tag is set: it is built
without a panic, from the declared values. -/
theorem serverDefinition_of_no_tags (d : ResourceData)
    (htags : d.config.tags = none ∨ d.config.tags = some []) :
    ∃ volumes : GoMap String, (∀ k, volumes.lookup k = d.config.volumes.lookup k) ∧
      serverDefinition d = .ok (d.config.image,
        { Name := d.config.name, Image := some d.config.image, Volumes := volumes,
          DynamicIPRequired := d.config.dynamic_ip_required.filter fun b => b != false,
          Bootscript := d.config.bootscript.filter fun s => s != "",
          Tags := none }) := by
  obtain ⟨volumes, hvol, hlook⟩ := rangeVolumes_mapValue d.config.volumes
  refine ⟨volumes, hlook, ?_⟩
  have ht : d.GetOk "tags" = (.sliceInterface [], false) := by
    rw [GetOk_tags]; rcases htags with h | h <;> simp [h]
  simp only [serverDefinition, Get_image, Get_name, Get_volumes, mapValue,
    GoValue.assertString, GoValue.assertBool, GoValue.assertMapStringInterface, hvol,
    GetOk_dynamic_ip_required, GetOk_bootscript, ht, ScalewayServerDefinition.zero]
  rcases hd : d.config.dynamic_ip_required with _ | b <;>
    rcases hb : d.config.bootscript with _ | s
  · simp
  · rcases hs : (s != "") <;> simp [hs, Option.filter]
  · cases b <;> simp [Option.filter]
  · cases b <;> rcases hs : (s != "") <;> simp [hs, Option.filter]

/-- With a tag set, line 94 panics: the tags are read as a `[]interface{}`. -/
theorem serverDefinition_of_tags (d : ResourceData) (t : String) (ts : List String)
    (htags : d.config.tags = some (t :: ts)) :
    serverDefinition d = .error "interface conversion: interface {} is not []string" := by
  obtain ⟨volumes, hvol, -⟩ := rangeVolumes_mapValue d.config.volumes
  have ht : d.GetOk "tags" = (.sliceInterface ((t :: ts).map GoValue.string), true) := by
    rw [GetOk_tags]; simp [htags]
  simp only [serverDefinition, Get_image, Get_name, Get_volumes, mapValue,
    GoValue.assertString, GoValue.assertBool, GoValue.assertMapStringInterface, hvol,
    GetOk_dynamic_ip_required, GetOk_bootscript, ht, ScalewayServerDefinition.zero]
  rcases hd : d.config.dynamic_ip_required with _ | b <;>
    rcases hb : d.config.bootscript with _ | s
  · simp [GoValue.assertSliceString]
  · rcases hs : (s != "") <;> simp [hs, GoValue.assertSliceString]
  · cases b <;> simp [GoValue.assertSliceString]
  · cases b <;> rcases hs : (s != "") <;> simp [hs, GoValue.assertSliceString]

/-- The image a built request carries along is the declared one. -/
theorem serverDefinition_image (d : ResourceData) (image : String)
    (definition : ScalewayServerDefinition)
    (hdef : serverDefinition d = .ok (image, definition)) : image = d.config.image := by
  rcases ht : d.config.tags with _ | ts
  · obtain ⟨v, -, h⟩ := serverDefinition_of_no_tags d (Or.inl ht)
    rw [h] at hdef; injection hdef with h1; injection h1 with h2 _; exact h2.symm
  · cases ts with
    | nil =>
      obtain ⟨v, -, h⟩ := serverDefinition_of_no_tags d (Or.inr ht)
      rw [h] at hdef; injection hdef with h1; injection h1 with h2 _; exact h2.symm
    | cons t ts =>
      rw [serverDefinition_of_tags d t ts ht] at hdef
      cases hdef

/-- Switching the partial-state mode does not change the request built. -/
theorem serverDefinition_Partial (d : ResourceData) (b : Bool) :
    serverDefinition (d.Partial b) = serverDefinition d := by
  simp only [serverDefinition, Get_image, Get_name, Get_volumes, GetOk_dynamic_ip_required,
    GetOk_bootscript, GetOk_tags]
  rfl

/-! ## Observe: `resourceServerRead` -/

/-- C4, the absent-resource property: when `GetServer` on the identifier fails
with an API error of status code 404, `resourceServerRead` returns no error
and leaves the identifier empty, every other local field as it was. -/
theorem resourceServerRead_not_found (d : ResourceData) (m : ScalewayAPI) (h : List Call)
    (msg : String) (hget : m.GetServer h d.Id = .error (.ScalewayAPIError 404 msg)) :
    resourceServerRead d m h = (.nil, d.SetId "", h ++ [Call.GetServer d.Id]) ∧
      (resourceServerRead d m h).2.1.Id = "" := by
  simp only [ResourceData.Id] at hget
  simp [resourceServerRead, hget, ResourceData.SetId, ResourceData.Id]

/-- The absent-resource property on the server `srv-1` that the stub reports
as not found. -/
theorem resourceServerRead_not_found_witness :
    resourceServerRead (existingResource web1 web1) stubNotFound [] =
        (.nil, (existingResource web1 web1).SetId "", [Call.GetServer "srv-1"]) ∧
      (resourceServerRead (existingResource web1 web1) stubNotFound []).2.1.Id = "" :=
  resourceServerRead_not_found (existingResource web1 web1) stubNotFound [] "not found" rfl

/-- An API error with a status code other than 404 is returned as it is, and
nothing local changes. -/
theorem resourceServerRead_api_error (d : ResourceData) (m : ScalewayAPI) (h : List Call)
    (code : Int) (msg : String) (hcode : code ≠ 404)
    (hget : m.GetServer h d.Id = .error (.ScalewayAPIError code msg)) :
    resourceServerRead d m h =
      (.err (.ScalewayAPIError code msg), d, h ++ [Call.GetServer d.Id]) := by
  simp only [ResourceData.Id] at hget
  simp [resourceServerRead, hget, hcode, ResourceData.Id]

/-- A fetch error that is not an `api.ScalewayAPIError` makes the type
assertion of line 139 panic: nothing is returned. -/
theorem resourceServerRead_other_error (d : ResourceData) (m : ScalewayAPI) (h : List Call)
    (e : GoError) (hget : m.GetServer h d.Id = .error e)
    (hty : ∀ code msg, e ≠ .ScalewayAPIError code msg) :
    resourceServerRead d m h =
      (.panic "interface conversion: error is not api.ScalewayAPIError", d,
        h ++ [Call.GetServer d.Id]) := by
  simp only [ResourceData.Id] at hget
  cases e with
  | ScalewayAPIError code msg => exact absurd rfl (hty code msg)
  | errorString s => simp [resourceServerRead, hget, ResourceData.Id]
  | other s => simp [resourceServerRead, hget, ResourceData.Id]

/-- C5, at a transport error: `GetServer` fails with an error that is not the
not-found condition and not an API error, and `resourceServerRead` does not
return it: it panics. -/
theorem resourceServerRead_transport_error_panics :
    stubTransportError.GetServer [] (existingResource web1 web1).Id =
        .error (.other "dial tcp: connection refused") ∧
      (resourceServerRead (existingResource web1 web1) stubTransportError []).1 =
        .panic "interface conversion: error is not api.ScalewayAPIError" ∧
      (resourceServerRead (existingResource web1 web1) stubTransportError []).1 ≠
        .err (.other "dial tcp: connection refused") := by
  refine ⟨rfl, by decide, by decide⟩

/-- C6, the projection of Observe: when `GetServer` returns the record `s`,
`resourceServerRead` returns no error, the four computed attributes are those
of `s` whatever they were before, the connection info is exactly
`{type: "ssh", host: s.PublicAddress.IP}`, and the identifier and the declared
fields are unchanged. -/
theorem resourceServerRead_projection (d : ResourceData) (m : ScalewayAPI) (h : List Call)
    (s : ScalewayServer) (hget : m.GetServer h d.Id = .ok s) :
    (resourceServerRead d m h).1 = .nil ∧
      (resourceServerRead d m h).2.2 = h ++ [Call.GetServer d.Id] ∧
      (resourceServerRead d m h).2.1.Get "ipv4_address" = .string s.PublicAddress.IP ∧
      (resourceServerRead d m h).2.1.Get "ipv4_address_private" = .string s.PrivateIP ∧
      (resourceServerRead d m h).2.1.Get "state" = .string s.State ∧
      (resourceServerRead d m h).2.1.Get "state_detail" = .string s.StateDetail ∧
      (∀ k, (resourceServerRead d m h).2.1.connInfo.lookup k =
        if k = "type" then some "ssh"
        else if k = "host" then some s.PublicAddress.IP else none) ∧
      (resourceServerRead d m h).2.1.Id = d.Id ∧
      (resourceServerRead d m h).2.1.config = d.config ∧
      (resourceServerRead d m h).2.1.prior = d.prior := by
  have hr : resourceServerRead d m h =
      (.nil,
        { d with
          ipv4_address := s.PublicAddress.IP, ipv4_address_private := s.PrivateIP,
          state := s.State, state_detail := s.StateDetail,
          connInfo := ((∅ : GoMap String).insert "type" "ssh").insert "host"
            s.PublicAddress.IP },
        h ++ [Call.GetServer d.Id]) := by
    simp only [ResourceData.Id] at hget
    simp [resourceServerRead, hget, ResourceData.Set, ResourceData.SetConnInfo, ResourceData.Id]
  rw [hr]
  refine ⟨rfl, rfl, ?_, ?_, ?_, ?_, ?_, rfl, rfl, rfl⟩
  · simp [ResourceData.Get, readField]
  · simp [ResourceData.Get, readField]
  · simp [ResourceData.Get, readField]
  · simp [ResourceData.Get, readField]
  · intro k
    by_cases hhost : k = "host"
    · subst hhost
      simp
    · rw [AList.lookup_insert_ne hhost]
      by_cases htype : k = "type"
      · subst htype
        rw [AList.lookup_insert]
        simp
      · rw [AList.lookup_insert_ne htype, AList.lookup_empty]
        simp [hhost, htype]

/-- The projection on the record `{1.2.3.4, 10.0.0.5, running, ""}`, over
computed attributes of an earlier read. -/
theorem resourceServerRead_projection_witness :
    (resourceServerRead (existingResource web1 web1) stubClient []).1 = .nil ∧
      (resourceServerRead (existingResource web1 web1) stubClient []).2.2 =
        [] ++ [Call.GetServer "srv-1"] ∧
      (resourceServerRead (existingResource web1 web1) stubClient []).2.1.Get "ipv4_address" =
        .string "1.2.3.4" ∧
      (resourceServerRead (existingResource web1 web1) stubClient []).2.1.Get
        "ipv4_address_private" = .string "10.0.0.5" ∧
      (resourceServerRead (existingResource web1 web1) stubClient []).2.1.Get "state" =
        .string "running" ∧
      (resourceServerRead (existingResource web1 web1) stubClient []).2.1.Get "state_detail" =
        .string "" ∧
      (∀ k, (resourceServerRead (existingResource web1 web1) stubClient []).2.1.connInfo.lookup k =
        if k = "type" then some "ssh" else if k = "host" then some "1.2.3.4" else none) ∧
      (resourceServerRead (existingResource web1 web1) stubClient []).2.1.Id = "srv-1" ∧
      (resourceServerRead (existingResource web1 web1) stubClient []).2.1.config = web1 ∧
      (resourceServerRead (existingResource web1 web1) stubClient []).2.1.prior = web1 :=
  resourceServerRead_projection (existingResource web1 web1) stubClient [] runningServer rfl

/-! ## Reconcile-Delete: `resourceServerDelete` -/

/-- C10: `resourceServerDelete` issues the one call `DeleteServerSafe(id)`,
returns nil exactly when that call succeeds and otherwise the very error of
the call (a 404 included), and changes no local field. -/
theorem resourceServerDelete_surfaces_errors (d : ResourceData) (m : ScalewayAPI)
    (h : List Call) :
    (resourceServerDelete d m h).2.2 = h ++ [Call.DeleteServerSafe d.Id] ∧
      (resourceServerDelete d m h).2.1 = d ∧
      ((resourceServerDelete d m h).1 = .nil ↔ m.DeleteServerSafe h d.Id = none) ∧
      (∀ e, m.DeleteServerSafe h d.Id = some e → (resourceServerDelete d m h).1 = .err e) := by
  cases hdel : m.DeleteServerSafe h d.Id <;> simp [resourceServerDelete, hdel]

/-- Deleting `srv-1` on the stub that reports it not found returns the 404;
on the stub that deletes it, nil. -/
theorem resourceServerDelete_surfaces_errors_witness :
    (resourceServerDelete (existingResource web1 web1) stubNotFound []).1 =
        .err (.ScalewayAPIError 404 "not found") ∧
      (resourceServerDelete (existingResource web1 web1) stubNotFound []).2.1 =
        existingResource web1 web1 ∧
      (resourceServerDelete (existingResource web1 web1) stubClient []).1 = .nil :=
  ⟨(resourceServerDelete_surfaces_errors (existingResource web1 web1) stubNotFound []).2.2.2
      _ rfl,
    (resourceServerDelete_surfaces_errors (existingResource web1 web1) stubNotFound []).2.1,
    (resourceServerDelete_surfaces_errors (existingResource web1 web1) stubClient []).2.2.1.mpr
      rfl⟩

/-! ## Define: `resourceServerCreate` -/

/-- The calls of `resourceServerRead`: the one fetch. -/
theorem resourceServerRead_calls (d : ResourceData) (m : ScalewayAPI) (h : List Call) :
    (resourceServerRead d m h).2.2 = h ++ [Call.GetServer d.Id] := by
  unfold resourceServerRead
  cases m.GetServer h d.Id with
  | ok s => rfl
  | error e =>
    cases e with
    | ScalewayAPIError code msg => by_cases hc : code = 404 <;> simp [hc]
    | errorString s => rfl
    | other s => rfl

/-- The run of `resourceServerCreate` when the creation call fails. -/
theorem resourceServerCreate_of_post_error (d : ResourceData) (m : ScalewayAPI) (h : List Call)
    (image : String) (definition : ScalewayServerDefinition) (e : GoError)
    (hdef : serverDefinition d = .ok (image, definition))
    (hpost : m.PostServer h definition = .error e) :
    resourceServerCreate d m h =
      (.err (.errorString ("Error Posting server with image " ++ image)), d.Partial true,
        h ++ [Call.PostServer definition]) := by
  simp only [resourceServerCreate, serverDefinition_Partial, hdef, hpost]

/-- The run of `resourceServerCreate` when the power-on call fails: the error
is returned before `d.SetId(id)` is reached. -/
theorem resourceServerCreate_of_poweron_error (d : ResourceData) (m : ScalewayAPI)
    (h : List Call) (image : String) (definition : ScalewayServerDefinition) (id : String)
    (e : GoError) (hdef : serverDefinition d = .ok (image, definition))
    (hpost : m.PostServer h definition = .ok id)
    (hpow : m.PostServerAction (h ++ [Call.PostServer definition]) id "poweron" = some e) :
    resourceServerCreate d m h =
      (.err e, d.Partial true,
        h ++ [Call.PostServer definition] ++ [Call.PostServerAction id "poweron"]) := by
  simp only [resourceServerCreate, serverDefinition_Partial, hdef, hpost, hpow]

/-- The run of `resourceServerCreate` when the readiness wait fails. -/
theorem resourceServerCreate_of_wait_error (d : ResourceData) (m : ScalewayAPI)
    (h : List Call) (image : String) (definition : ScalewayServerDefinition) (id : String)
    (e : GoError) (hdef : serverDefinition d = .ok (image, definition))
    (hpost : m.PostServer h definition = .ok id)
    (hpow : m.PostServerAction (h ++ [Call.PostServer definition]) id "poweron" = none)
    (hwait : m.WaitForServerReady
      (h ++ [Call.PostServer definition] ++ [Call.PostServerAction id "poweron"]) id "" =
        .error e) :
    resourceServerCreate d m h =
      (.err e, (d.Partial true).SetId id,
        h ++ [Call.PostServer definition] ++ [Call.PostServerAction id "poweron"] ++
          [Call.WaitForServerReady id ""]) := by
  simp only [resourceServerCreate, serverDefinition_Partial, hdef, hpost, hpow, hwait]

/-- The calls of `resourceServerCreate` when the readiness wait succeeds: the
fetch of `resourceServerRead` follows. -/
theorem resourceServerCreate_of_wait_ok (d : ResourceData) (m : ScalewayAPI)
    (h : List Call) (image : String) (definition : ScalewayServerDefinition) (id : String)
    (s : ScalewayServer) (hdef : serverDefinition d = .ok (image, definition))
    (hpost : m.PostServer h definition = .ok id)
    (hpow : m.PostServerAction (h ++ [Call.PostServer definition]) id "poweron" = none)
    (hwait : m.WaitForServerReady
      (h ++ [Call.PostServer definition] ++ [Call.PostServerAction id "poweron"]) id "" =
        .ok s) :
    (resourceServerCreate d m h).2.2 =
      h ++ [Call.PostServer definition] ++ [Call.PostServerAction id "poweron"] ++
        [Call.WaitForServerReady id ""] ++ [Call.GetServer id] := by
  have hcalls := resourceServerRead_calls (((d.Partial true).SetId id).SetPartial "id") m
    (h ++ [Call.PostServer definition] ++ [Call.PostServerAction id "poweron"] ++
      [Call.WaitForServerReady id ""])
  have hid : (((d.Partial true).SetId id).SetPartial "id").Id = id := by
    simp [ResourceData.SetPartial, ResourceData.SetId, ResourceData.Partial, ResourceData.Id]
  rw [hid] at hcalls
  simp only [resourceServerCreate, serverDefinition_Partial, hdef, hpost, hpow, hwait]
  rcases hr : resourceServerRead (((d.Partial true).SetId id).SetPartial "id") m
    (h ++ [Call.PostServer definition] ++ [Call.PostServerAction id "poweron"] ++
      [Call.WaitForServerReady id ""]) with ⟨o, d1, h4⟩
  rw [hr] at hcalls
  cases o <;> simpa using hcalls

/-- Once the request is built, the calls of `resourceServerCreate` start with
the creation call on it. -/
theorem resourceServerCreate_calls_start (d : ResourceData) (m : ScalewayAPI) (h : List Call)
    (image : String) (definition : ScalewayServerDefinition)
    (hdef : serverDefinition d = .ok (image, definition)) :
    ∃ rest, (resourceServerCreate d m h).2.2 = h ++ Call.PostServer definition :: rest := by
  rcases hpost : m.PostServer h definition with e | id
  · rw [resourceServerCreate_of_post_error d m h image definition e hdef hpost]
    exact ⟨[], rfl⟩
  rcases hpow : m.PostServerAction (h ++ [Call.PostServer definition]) id "poweron" with _ | e
  swap
  · rw [resourceServerCreate_of_poweron_error d m h image definition id e hdef hpost hpow]
    exact ⟨[Call.PostServerAction id "poweron"], by simp⟩
  rcases hwait : m.WaitForServerReady
    (h ++ [Call.PostServer definition] ++ [Call.PostServerAction id "poweron"]) id ""
    with e | s
  · rw [resourceServerCreate_of_wait_error d m h image definition id e hdef hpost hpow hwait]
    exact ⟨[Call.PostServerAction id "poweron", Call.WaitForServerReady id ""], by simp⟩
  · rw [resourceServerCreate_of_wait_ok d m h image definition id s hdef hpost hpow hwait]
    exact ⟨[Call.PostServerAction id "poweron", Call.WaitForServerReady id "",
      Call.GetServer id], by simp⟩

/-- C1, at a power-on failure: the stub creates `srv-1` and refuses to power it
on; `resourceServerCreate` returns the error of the power-on call, after the
creation call and the power-on call, and the local identifier is still empty:
`srv-1` is not recorded. -/
theorem resourceServerCreate_poweron_failure_loses_id :
    stubPowerOnFails.PostServer [] web1Definition = .ok "srv-1" ∧
      stubPowerOnFails.PostServerAction [Call.PostServer web1Definition] "srv-1" "poweron" =
        some (.ScalewayAPIError 500 "cannot power on") ∧
      (resourceServerCreate (newResource web1) stubPowerOnFails []).1 =
        .err (.ScalewayAPIError 500 "cannot power on") ∧
      (resourceServerCreate (newResource web1) stubPowerOnFails []).2.2 =
        [Call.PostServer web1Definition, Call.PostServerAction "srv-1" "poweron"] ∧
      (resourceServerCreate (newResource web1) stubPowerOnFails []).2.1.Id = "" ∧
      (resourceServerCreate (newResource web1) stubPowerOnFails []).2.1.Id ≠ "srv-1" := by
  refine ⟨rfl, rfl, by decide, rfl, by decide, by decide⟩

/-- C7, the readiness failure keeps the identifier: when the creation call
returns `id`, the power-on call succeeds and the readiness wait fails with `e`,
`resourceServerCreate` returns `e`, the local identifier is `id`, and the
calls issued are the creation, the power-on and the wait, no fetch. -/
theorem resourceServerCreate_wait_failure_keeps_id (d : ResourceData) (m : ScalewayAPI)
    (h : List Call) (image : String) (definition : ScalewayServerDefinition) (id : String)
    (e : GoError) (hdef : serverDefinition d = .ok (image, definition))
    (hpost : m.PostServer h definition = .ok id)
    (hpow : m.PostServerAction (h ++ [Call.PostServer definition]) id "poweron" = none)
    (hwait : m.WaitForServerReady
      (h ++ [Call.PostServer definition] ++ [Call.PostServerAction id "poweron"]) id "" =
        .error e) :
    (resourceServerCreate d m h).1 = .err e ∧
      (resourceServerCreate d m h).2.1.Id = id ∧
      (resourceServerCreate d m h).2.2 =
        h ++ [Call.PostServer definition, Call.PostServerAction id "poweron",
          Call.WaitForServerReady id ""] ∧
      ∀ sid, Call.GetServer sid ∉ ((resourceServerCreate d m h).2.2.drop h.length) := by
  rw [resourceServerCreate_of_wait_error d m h image definition id e hdef hpost hpow hwait]
  refine ⟨rfl, rfl, by simp, fun sid => ?_⟩
  simp

/-- The readiness failure on the configuration `web1`: `srv-1` stays recorded. -/
theorem resourceServerCreate_wait_failure_keeps_id_witness :
    (resourceServerCreate (newResource web1) stubWaitFails []).1 =
        .err (.errorString "Server did not reach ready state") ∧
      (resourceServerCreate (newResource web1) stubWaitFails []).2.1.Id = "srv-1" ∧
      (resourceServerCreate (newResource web1) stubWaitFails []).2.2 =
        [] ++ [Call.PostServer web1Definition, Call.PostServerAction "srv-1" "poweron",
          Call.WaitForServerReady "srv-1" ""] ∧
      ∀ sid, Call.GetServer sid ∉
        ((resourceServerCreate (newResource web1) stubWaitFails []).2.2.drop
          ([] : List Call).length) :=
  resourceServerCreate_wait_failure_keeps_id (newResource web1) stubWaitFails [] "img-123"
    web1Definition "srv-1" (.errorString "Server did not reach ready state") rfl rfl rfl rfl

/-- C9, no success before readiness: if `resourceServerCreate` returns nil,
then the creation call, the power-on call for the identifier it returned and
the readiness wait for that identifier were issued in this order, each
succeeded, and one fetch of that identifier followed; and if the creation
call fails, `resourceServerCreate` returns the error naming the image after
that single call, with the identifier as it was. -/
theorem resourceServerCreate_success_after_readiness (d : ResourceData) (m : ScalewayAPI)
    (h : List Call) :
    ((resourceServerCreate d m h).1 = .nil →
      ∃ definition id s,
        serverDefinition d = .ok (d.config.image, definition) ∧
        m.PostServer h definition = .ok id ∧
        m.PostServerAction (h ++ [Call.PostServer definition]) id "poweron" = none ∧
        m.WaitForServerReady
          (h ++ [Call.PostServer definition] ++ [Call.PostServerAction id "poweron"]) id "" =
            .ok s ∧
        (resourceServerCreate d m h).2.2 =
          h ++ [Call.PostServer definition, Call.PostServerAction id "poweron",
            Call.WaitForServerReady id "", Call.GetServer id]) ∧
    (∀ image definition e, serverDefinition d = .ok (image, definition) →
      m.PostServer h definition = .error e →
        (resourceServerCreate d m h).1 =
          .err (.errorString ("Error Posting server with image " ++ d.config.image)) ∧
        (resourceServerCreate d m h).2.2 = h ++ [Call.PostServer definition] ∧
        (resourceServerCreate d m h).2.1.Id = d.Id) := by
  constructor
  · intro hnil
    rcases hdef : serverDefinition d with msg | ⟨image, definition⟩
    · simp [resourceServerCreate, serverDefinition_Partial, hdef] at hnil
    rcases hpost : m.PostServer h definition with e | id
    · rw [resourceServerCreate_of_post_error d m h image definition e hdef hpost] at hnil
      cases hnil
    rcases hpow : m.PostServerAction (h ++ [Call.PostServer definition]) id "poweron" with _ | e
    swap
    · rw [resourceServerCreate_of_poweron_error d m h image definition id e hdef hpost hpow]
        at hnil
      cases hnil
    rcases hwait : m.WaitForServerReady
      (h ++ [Call.PostServer definition] ++ [Call.PostServerAction id "poweron"]) id ""
      with e | s
    · rw [resourceServerCreate_of_wait_error d m h image definition id e hdef hpost hpow hwait]
        at hnil
      cases hnil
    refine ⟨definition, id, s, ?_, hpost, hpow, hwait, ?_⟩
    · rw [← serverDefinition_image d image definition hdef]
    · rw [resourceServerCreate_of_wait_ok d m h image definition id s hdef hpost hpow hwait]
      simp
  · intro image definition e hdef hpost
    rw [resourceServerCreate_of_post_error d m h image definition e hdef hpost,
      serverDefinition_image d image definition hdef]
    exact ⟨rfl, rfl, rfl⟩

/-- On `web1` the stub on which every call succeeds makes
`resourceServerCreate` return nil after the four calls, and the stub whose
creation call fails makes it return the error naming `img-123`. -/
theorem resourceServerCreate_success_after_readiness_witness :
    (∃ definition id s,
        serverDefinition (newResource web1) = .ok ((newResource web1).config.image, definition) ∧
        stubClient.PostServer [] definition = .ok id ∧
        stubClient.PostServerAction ([] ++ [Call.PostServer definition]) id "poweron" = none ∧
        stubClient.WaitForServerReady
          ([] ++ [Call.PostServer definition] ++ [Call.PostServerAction id "poweron"]) id "" =
            .ok s ∧
        (resourceServerCreate (newResource web1) stubClient []).2.2 =
          [] ++ [Call.PostServer definition, Call.PostServerAction id "poweron",
            Call.WaitForServerReady id "", Call.GetServer id]) ∧
      ((resourceServerCreate (newResource web1) stubPostServerFails []).1 =
          .err (.errorString ("Error Posting server with image " ++ (newResource web1).config.image)) ∧
        (resourceServerCreate (newResource web1) stubPostServerFails []).2.2 =
          [] ++ [Call.PostServer web1Definition] ∧
        (resourceServerCreate (newResource web1) stubPostServerFails []).2.1.Id =
          (newResource web1).Id) :=
  ⟨(resourceServerCreate_success_after_readiness (newResource web1) stubClient []).1
      (by decide),
    (resourceServerCreate_success_after_readiness (newResource web1) stubPostServerFails []).2
      "img-123" web1Definition (.ScalewayAPIError 400 "invalid image") rfl rfl⟩

/-- C8 as stated fails: with `dynamic_ip_required = false` and
`bootscript = ""` declared explicitly, the request submitted to `PostServer`
carries neither field, although both are present in the configuration. -/
theorem resourceServerCreate_drops_explicit_zero_values :
    web1Explicit.dynamic_ip_required = some false ∧ web1Explicit.bootscript = some "" ∧
      (resourceServerCreate (newResource web1Explicit) stubClient []).2.2.head? =
        some (Call.PostServer web1Definition) ∧
      web1Definition.DynamicIPRequired = none ∧ web1Definition.Bootscript = none ∧
      ¬ (web1Definition.DynamicIPRequired.isSome ↔ web1Explicit.dynamic_ip_required.isSome) ∧
      ¬ (web1Definition.Bootscript.isSome ↔ web1Explicit.bootscript.isSome) := by
  refine ⟨rfl, rfl, rfl, rfl, rfl, by decide, by decide⟩

/-- C8, amended: for every configuration with no tag set, the first call of
`resourceServerCreate` is `PostServer` on a request whose name, image and
volumes are the declared ones, whose `DynamicIPRequired` and `Bootscript` are
present exactly when the field is declared with a value other than the zero
value (`true`, a non-empty string), with that value, and whose tags are unset. -/
theorem resourceServerCreate_request_shape (d : ResourceData) (m : ScalewayAPI)
    (h : List Call) (htags : d.config.tags = none ∨ d.config.tags = some []) :
    ∃ definition rest,
      (resourceServerCreate d m h).2.2 = h ++ Call.PostServer definition :: rest ∧
      definition.Name = d.config.name ∧
      definition.Image = some d.config.image ∧
      (∀ k, definition.Volumes.lookup k = d.config.volumes.lookup k) ∧
      definition.DynamicIPRequired = (d.config.dynamic_ip_required.filter fun b => b != false) ∧
      definition.Bootscript = (d.config.bootscript.filter fun s => s != "") ∧
      definition.Tags = none := by
  obtain ⟨volumes, hvol, hdef⟩ := serverDefinition_of_no_tags d htags
  obtain ⟨rest, hrest⟩ := resourceServerCreate_calls_start d m h _ _ hdef
  exact ⟨_, rest, hrest, rfl, rfl, hvol, rfl, rfl, rfl⟩

/-- The request built from `web1` with a dynamic IP, a boot script and an
empty list of tags. -/
theorem resourceServerCreate_request_shape_witness :
    ∃ definition rest,
      (resourceServerCreate (newResource web1Full) stubClient []).2.2 =
        [] ++ Call.PostServer definition :: rest ∧
      definition.Name = (newResource web1Full).config.name ∧
      definition.Image = some (newResource web1Full).config.image ∧
      (∀ k, definition.Volumes.lookup k = (newResource web1Full).config.volumes.lookup k) ∧
      definition.DynamicIPRequired =
        ((newResource web1Full).config.dynamic_ip_required.filter fun b => b != false) ∧
      definition.Bootscript =
        ((newResource web1Full).config.bootscript.filter fun s => s != "") ∧
      definition.Tags = none :=
  resourceServerCreate_request_shape (newResource web1Full) stubClient [] (Or.inr rfl)

/-- With a tag declared, `resourceServerCreate` panics at line 94 before any
call is issued. -/
theorem resourceServerCreate_panics_on_tags (d : ResourceData) (m : ScalewayAPI)
    (h : List Call) (t : String) (ts : List String) (htags : d.config.tags = some (t :: ts)) :
    resourceServerCreate d m h =
      (.panic "interface conversion: interface {} is not []string", d.Partial true, h) := by
  simp only [resourceServerCreate, serverDefinition_Partial, serverDefinition_of_tags d t ts htags]

/-! ## Reconcile-Update: `resourceServerUpdate` -/

/-- The run of `resourceServerUpdate`: it never panics, issues the one call
`PatchServer`, returns nil whatever that call returns, and builds the patch
from the two `HasChange` tests. -/
theorem resourceServerUpdate_run (d : ResourceData) (m : ScalewayAPI) (h : List Call) :
    ∃ patch, resourceServerUpdate d m h = (.nil, d, h ++ [Call.PatchServer d.Id patch]) ∧
      patch.Name = (if d.HasChange "name" then some d.config.name else none) ∧
      (d.HasChange "volumes" = false → patch.Volumes = none) ∧
      (d.HasChange "volumes" = true → ∃ volumes, patch.Volumes = some volumes ∧
        ∀ k, volumes.lookup k =
          (d.config.volumes.lookup k).map fun v => ({ Identifier := v } : ScalewayVolume)) := by
  obtain ⟨volumes, hvol, hlook⟩ := rangePatchVolumes_mapValue d.config.volumes
  rcases hn : d.HasChange "name" <;> rcases hv : d.HasChange "volumes"
  · exact ⟨{ Name := none, Volumes := none },
      by simp [resourceServerUpdate, hn, hv, ScalewayServerPatchDefinition.zero], by simp,
      fun _ => rfl, fun hc => by cases hc⟩
  · exact ⟨{ Name := none, Volumes := some volumes },
      by simp [resourceServerUpdate, hn, hv, ScalewayServerPatchDefinition.zero, Get_volumes,
        mapValue, GoValue.assertMapStringInterface, hvol], by simp,
      (fun hc => by cases hc), fun _ => ⟨volumes, rfl, hlook⟩⟩
  · exact ⟨{ Name := some d.config.name, Volumes := none },
      by simp [resourceServerUpdate, hn, hv, ScalewayServerPatchDefinition.zero, Get_name,
        GoValue.assertString], by simp,
      fun _ => rfl, fun hc => by cases hc⟩
  · exact ⟨{ Name := some d.config.name, Volumes := some volumes },
      by simp [resourceServerUpdate, hn, hv, ScalewayServerPatchDefinition.zero, Get_name,
        GoValue.assertString, Get_volumes, mapValue, GoValue.assertMapStringInterface, hvol],
      by simp, (fun hc => by cases hc), fun _ => ⟨volumes, rfl, hlook⟩⟩

/-- The result of `resourceServerUpdate` is nil on every input: the error of
`PatchServer` is never looked at. -/
theorem resourceServerUpdate_returns_nil (d : ResourceData) (m : ScalewayAPI) (h : List Call) :
    (resourceServerUpdate d m h).1 = .nil := by
  obtain ⟨patch, hrun, -⟩ := resourceServerUpdate_run d m h
  rw [hrun]

/-- C2, at a failing patch call: the stub answers the `PatchServer` call of
`resourceServerUpdate` with an error and `resourceServerUpdate` returns nil. -/
theorem resourceServerUpdate_swallows_patch_error :
    (resourceServerUpdate (existingResource web1 web2) stubPatchFails []).2.2 =
        [Call.PatchServer "srv-1" web2Patch] ∧
      stubPatchFails.PatchServer [] "srv-1" web2Patch =
        some (.ScalewayAPIError 400 "invalid volume") ∧
      (resourceServerUpdate (existingResource web1 web2) stubPatchFails []).1 = .nil ∧
      (resourceServerUpdate (existingResource web1 web2) stubPatchFails []).1 ≠
        .err (.ScalewayAPIError 400 "invalid volume") := by
  refine ⟨rfl, rfl, by decide, by decide⟩

/-- C3, the sparse patch: `resourceServerUpdate` submits one patch to
`PatchServer`; its name is present iff the name changed, and is then the new
name; its volumes are present iff the volumes mapping changed, and then bind
exactly the slots of the new mapping, each to the volume record of its
identifier; with neither changed the patch is empty. -/
theorem resourceServerUpdate_sparse_patch (d : ResourceData) (m : ScalewayAPI) (h : List Call) :
    ∃ patch, (resourceServerUpdate d m h).2.2 = h ++ [Call.PatchServer d.Id patch] ∧
      (d.prior.name = d.config.name → patch.Name = none) ∧
      (d.prior.name ≠ d.config.name → patch.Name = some d.config.name) ∧
      ((∀ k, d.prior.volumes.lookup k = d.config.volumes.lookup k) → patch.Volumes = none) ∧
      (¬ (∀ k, d.prior.volumes.lookup k = d.config.volumes.lookup k) →
        ∃ volumes, patch.Volumes = some volumes ∧
          ∀ k, volumes.lookup k =
            (d.config.volumes.lookup k).map fun v => ({ Identifier := v } : ScalewayVolume)) ∧
      (d.prior.name = d.config.name →
        (∀ k, d.prior.volumes.lookup k = d.config.volumes.lookup k) →
          patch = ScalewayServerPatchDefinition.zero) := by
  obtain ⟨patch, hrun, hname, hsame, hchanged⟩ := resourceServerUpdate_run d m h
  have hcn : d.HasChange "name" = true ↔ d.prior.name ≠ d.config.name := by
    simp [ResourceData.HasChange]
  have hcv : d.HasChange "volumes" = true ↔
      ¬ ∀ k, d.prior.volumes.lookup k = d.config.volumes.lookup k := by
    rw [← mapDeepEqual_iff]
    simp [ResourceData.HasChange]
  have h1 : d.prior.name = d.config.name → patch.Name = none := fun heq => by
    have : d.HasChange "name" = false := by
      rcases hc : d.HasChange "name" with _ | _
      · rfl
      · exact absurd heq (hcn.mp hc)
    rw [hname, this]; rfl
  have h3 : (∀ k, d.prior.volumes.lookup k = d.config.volumes.lookup k) →
      patch.Volumes = none := fun heq => by
    apply hsame
    rcases hc : d.HasChange "volumes" with _ | _
    · rfl
    · exact absurd heq (hcv.mp hc)
  refine ⟨patch, by rw [hrun], h1, fun hne => ?_, h3, fun hne => hchanged (hcv.mpr hne),
    fun hn hv => ?_⟩
  · rw [hname, hcn.mpr hne]; rfl
  · have e1 := h1 hn
    have e3 := h3 hv
    cases patch
    simp only at e1 e3
    subst e1 e3
    rfl

/-- The patch for `web1` renamed to `web2` with a second volume carries the
new name and the two volume records. -/
theorem resourceServerUpdate_sparse_patch_example :
    (resourceServerUpdate (existingResource web1 web2) stubClient []).2.2 =
        [Call.PatchServer "srv-1" web2Patch] ∧
      (resourceServerUpdate (existingResource web1 web1) stubClient []).2.2 =
        [Call.PatchServer "srv-1" ScalewayServerPatchDefinition.zero] :=
  ⟨rfl, rfl⟩

end ResourceServer
